import Mathlib

/-!
# TradeChart: a shallow embedding of `src/pages/TradeChart.jsx`

The component keeps three pieces of React state (`trades`, `loading`, `error`), one
closure variable of its subscription effect (`hasReceivedData`), one ref
(`timeoutRef`) and two resources owned by the browser: the one-shot timer armed at
mount and the `EventSource` connection.  The handlers of the effect are embedded as
functions on a record holding all of these; the browser is embedded as the events it
can deliver.

JavaScript numbers are never inspected by the component (they are only copied), so
the development is parametric in the type `Num` that carries them.  The built-in
operations the component calls (`JSON.parse`, the string conversion of non-string
values, the `Date` constructor) are fields of a runtime record; an operation that
throws returns `none`.  `console.error` calls, the styling constants of the chart and
the second effect (lines 70-74, which only destroys a stale chart instance) have no
effect on the state and are left out.

A browser delivers no message or error event on a connection after `close()`, and none
after unmount.  The statements about event sequences below are proved for every
sequence, so in particular for those a browser can deliver; every concrete sequence
used as an example is one a browser can deliver.
-/

namespace TradeChart

/-! ## JavaScript values -/

/-- A JavaScript value as produced by `JSON.parse`, plus `undefined` (the result of
reading a property that is absent).  An object is the list of its own properties; a
property is read from the first entry with its key. -/
inductive JsValue (Num : Type) where
  | undefined
  | null
  | bool (b : Bool)
  | num (n : Num)
  | str (s : String)
  | arr (items : List (JsValue Num))
  | obj (fields : List (String × JsValue Num))

/-- A `Date` object, determined by its time value (a JavaScript number). -/
structure JsDate (Num : Type) where
  timeValue : Num

/-- The built-in operations of the JavaScript runtime that the component calls.
`none` stands for a thrown exception. -/
structure JsRuntime (Num : Type) where
  /-- Models `JSON.parse(text)`; `none` is a `SyntaxError`. -/
  JSON_parse : String → Option (JsValue Num)
  /-- String conversion of a number, an array or an object; `none` is a `TypeError`
  (an object whose `toString` and `valueOf` are not callable). -/
  toStringOf : JsValue Num → Option String
  /-- Time value of `new Date(n)` for a number `n` (never throws). -/
  timeClip : Num → Num
  /-- Time value of `new Date(v)` for a value that is not a number; `none` is a
  `TypeError` raised while converting an object to a primitive. -/
  timeValueOf : JsValue Num → Option Num

variable {Num : Type}

/-- Property read `base.key` for the keys the component reads (`type`, `data`, `p`,
`v`, `t`, `c`, `s`), none of which is a built-in property of a primitive or of an
array: `none` is the `TypeError` of reading a property of `null` or `undefined`;
an absent property reads as `undefined`. -/
def getProp : JsValue Num → String → Option (JsValue Num)
  | .undefined, _ => none
  | .null, _ => none
  | .obj fields, key => some ((fields.lookup key).getD .undefined)
  | _, _ => some .undefined

/-- String conversion of a value, as performed by `Array.prototype.join` on its
elements and by a template literal. -/
def jsToString (rt : JsRuntime Num) : JsValue Num → Option String
  | .undefined => some "undefined"
  | .null => some "null"
  | .bool true => some "true"
  | .bool false => some "false"
  | .str s => some s
  | v => rt.toStringOf v

/-- Map a callback that may throw over an array, left to right; the first exception
aborts the whole map. -/
def mapOrThrow {α β : Type} (f : α → Option β) : List α → Option (List β)
  | [] => some []
  | x :: xs =>
    match f x with
    | none => none
    | some y =>
      match mapOrThrow f xs with
      | none => none
      | some ys => some (y :: ys)

/-- One element of `Array.prototype.join`: `undefined` and `null` contribute the
empty string, every other element its string conversion. -/
def joinElement (rt : JsRuntime Num) : JsValue Num → Option String
  | .undefined => some ""
  | .null => some ""
  | v => jsToString rt v

/-- Method call `base.join(sep)`: a `TypeError` unless `base` is an array (only arrays
have a callable `join` among parsed JSON values). -/
def join (rt : JsRuntime Num) (base : JsValue Num) (sep : String) : Option String :=
  match base with
  | .arr items =>
    match mapOrThrow (joinElement rt) items with
    | none => none
    | some parts => some (sep.intercalate parts)
  | _ => none

/-- Constructor call `new Date(v)`. -/
def newDate (rt : JsRuntime Num) : JsValue Num → Option (JsDate Num)
  | .num n => some ⟨rt.timeClip n⟩
  | v =>
    match rt.timeValueOf v with
    | none => none
    | some tv => some ⟨tv⟩

/-! ## Component state -/

/-- One element of `trades`, as built by the callback at lines 38-44. -/
structure TradeRecord (Num : Type) where
  price : JsValue Num
  volume : JsValue Num
  timestamp : JsDate Num
  conditions : String
  symbol : JsValue Num

/-- Everything the handlers read or write. -/
structure State (Num : Type) where
  /-- React state `trades` (line 9). -/
  trades : List (TradeRecord Num)
  /-- React state `loading` (line 10). -/
  loading : Bool
  /-- React state `error` (line 11); `none` is `null`. -/
  error : Option String
  /-- Closure variable `hasReceivedData` (line 17). -/
  hasReceivedData : Bool
  /-- Ref cell `timeoutRef.current` (line 13); `none` is `null`. -/
  timeoutRef : Option Nat
  /-- Handle of the timer that is armed and has neither fired nor been cleared. -/
  pendingTimer : Option Nat
  /-- Number of calls of `eventSource.close()` so far. -/
  closeCalls : Nat

/-- Truthiness of `timeoutRef.current`: `null` and the number 0 are falsy. -/
def truthyRef : Option Nat → Bool
  | none => false
  | some h => h != 0

/-- Truthiness of `error`: `null` and the empty string are falsy. -/
def truthyError : Option String → Bool
  | none => false
  | some msg => msg != ""

/-- Browser call `clearTimeout(handle)`: cancels the timer with that handle if it is
still pending, and does nothing otherwise. -/
def clearTimeout (handle : Option Nat) (s : State Num) : State Num :=
  if s.pendingTimer = handle then { s with pendingTimer := none } else s

/-- Call of `eventSource.close()`. -/
def close (s : State Num) : State Num :=
  { s with closeCalls := s.closeCalls + 1 }

/-- The state right after the first render and the run of the subscription effect
(lines 9-26): the connection is open, the timer is armed.  Timer handles are
positive integers; `k` is the browser's handle counter, the handle is `k + 1`. -/
def mount (k : Nat) : State Num :=
  { trades := [], loading := true, error := none, hasReceivedData := false,
    timeoutRef := some (k + 1), pendingTimer := some (k + 1), closeCalls := 0 }

/-- The message shown by the timer callback (line 22). -/
def timeoutMessage : String := "API server is not responding. Please try again later."

/-- The message shown by the `catch` block (line 50). -/
def processingMessage : String := "Error processing trade data"

/-- The message shown by `onerror` (line 57). -/
def connectionMessage : String := "Connection error occurred"

/-- The callback passed to `setTimeout` (lines 20-26). -/
def timeoutCallback (s : State Num) : State Num :=
  if !s.hasReceivedData then
    close { s with error := some timeoutMessage, loading := false }
  else s

/-- The arrow function mapped over `data.data` (lines 38-44). -/
def toTradeRecord (rt : JsRuntime Num) (trade : JsValue Num) : Option (TradeRecord Num) :=
  match getProp trade "p" with
  | none => none
  | some p =>
    match getProp trade "v" with
    | none => none
    | some v =>
      match (getProp trade "t").bind (newDate rt) with
      | none => none
      | some timestamp =>
        match (getProp trade "c").bind (fun c => join rt c ", ") with
        | none => none
        | some conditions =>
          match getProp trade "s" with
          | none => none
          | some sym =>
            some { price := p, volume := v, timestamp := timestamp,
                   conditions := conditions, symbol := sym }

/-- Method call `base.map(callback)` (line 38): a `TypeError` unless `base` is an
array. -/
def mapTrades (rt : JsRuntime Num) (base : JsValue Num) : Option (List (TradeRecord Num)) :=
  match base with
  | .arr items => mapOrThrow (toTradeRecord rt) items
  | _ => none

/-- Lines 36-47, the part of the `try` block that can throw, run on the state left by
lines 30-34; `none` means an exception reached the `catch`. -/
def processMessage (rt : JsRuntime Num) (s : State Num) (eventData : String) :
    Option (State Num) :=
  match rt.JSON_parse eventData with
  | none => none
  | some data =>
    match getProp data "type" with
    | none => none
    | some (.str tag) =>
      if tag = "trade" then
        match (getProp data "data").bind (mapTrades rt) with
        | none => none
        | some tradeData =>
          some { s with trades := s.trades ++ tradeData, loading := false }
      else some s
    | some _ => some s

/-- The handler `eventSource.onmessage` (lines 28-53). -/
def onmessage (rt : JsRuntime Num) (s : State Num) (eventData : String) : State Num :=
  let s1 := { s with hasReceivedData := true }
  let s2 := if truthyRef s1.timeoutRef then clearTimeout s1.timeoutRef s1 else s1
  match processMessage rt s2 eventData with
  | some s3 => s3
  | none => { s2 with error := some processingMessage, loading := false }

/-- The handler `eventSource.onerror` (lines 55-60). -/
def onerror (s : State Num) : State Num :=
  close { s with error := some connectionMessage, loading := false }

/-- The cleanup function returned by the effect (lines 62-67), run at unmount. -/
def cleanup (s : State Num) : State Num :=
  let s1 := if truthyRef s.timeoutRef then clearTimeout s.timeoutRef s else s
  close s1

/-! ## Events -/

/-- What the browser can deliver to the mounted component. -/
inductive Event where
  | message (eventData : String)
  | transportError
  | timerExpired
  deriving DecidableEq

/-- Whether an event is a message event. -/
def Event.isMessage : Event → Bool
  | .message _ => true
  | _ => false

/-- Delivery of one event.  The timer callback runs only if the timer is still
pending, and a timer that fires is no longer pending. -/
def step (rt : JsRuntime Num) (s : State Num) : Event → State Num
  | .message eventData => onmessage rt s eventData
  | .transportError => onerror s
  | .timerExpired =>
    match s.pendingTimer with
    | none => s
    | some _ => timeoutCallback { s with pendingTimer := none }

/-- Delivery of a sequence of events, in order. -/
def run (rt : JsRuntime Num) (s : State Num) (events : List Event) : State Num :=
  events.foldl (step rt) s

/-! ## Rendering -/

/-- The single dataset of `chartData` (lines 79-87). -/
structure Dataset (Num : Type) where
  label : String
  data : List (JsValue Num)

/-- The object `chartData` (lines 76-89). -/
structure ChartData (Num : Type) where
  labels : List (JsDate Num)
  datasets : List (Dataset Num)

/-- The object `chartData` computed from `trades` (lines 76-89). -/
def chartData (trades : List (TradeRecord Num)) : ChartData Num :=
  { labels := trades.map (fun trade => trade.timestamp),
    datasets := [{ label := "Price", data := trades.map (fun trade => trade.price) }] }

/-- The title text of `chartOptions` (line 97); `none` if the template literal throws
while converting the symbol to a string. -/
def chartTitle (rt : JsRuntime Num) (trades : List (TradeRecord Num)) : Option String :=
  match trades with
  | [] => some "Trade Chart"
  | first :: _ =>
    match jsToString rt first.symbol with
    | none => none
    | some sym => some ("Symbol : " ++ sym)

/-- What the component returns (lines 142-163). -/
inductive View (Num : Type) where
  | errorView (message : String)
  | spinner
  | chart (data : ChartData Num) (title : String)

/-- The component body from line 76 on: `chartData` and `chartOptions` are computed
first, then one of the three views is returned; `none` if computing the title
throws. -/
def render (rt : JsRuntime Num) (s : State Num) : Option (View Num) :=
  match chartTitle rt s.trades with
  | none => none
  | some title =>
    if truthyError s.error then some (.errorView (s.error.getD ""))
    else if s.loading then some .spinner
    else some (.chart (chartData s.trades) title)

/-- The three view states. -/
inductive ViewState (Num : Type) where
  | Error (message : String)
  | Loading
  | Ready (trades : List (TradeRecord Num))

/-- The view state selected by the two guards at lines 142 and 150. -/
def viewState (s : State Num) : ViewState Num :=
  if truthyError s.error then .Error (s.error.getD "")
  else if s.loading then .Loading
  else .Ready s.trades

/-! ## Concrete runtimes for the examples -/

/-- The text of the example message of the feed. -/
def tradeText : String :=
  "\x7b\"type\":\"trade\",\"data\":[\x7b\"p\":101.5,\"v\":10,\"t\":1700000000000,\"c\":[\"@\"],\"s\":\"AAPL\"\x7d]\x7d"

/-- The value `JSON.parse` returns for `tradeText`. -/
def tradePayload : JsValue ℚ :=
  .obj [("type", .str "trade"),
        ("data", .arr [.obj [("p", .num 101.5), ("v", .num 10), ("t", .num 1700000000000),
                             ("c", .arr [.str "@"]), ("s", .str "AAPL")]])]

/-- The text of a message that is JSON but not a trade batch. -/
def pingText : String := "\x7b\"type\":\"ping\"\x7d"

/-- The value `JSON.parse` returns for `pingText`. -/
def pingPayload : JsValue ℚ := .obj [("type", .str "ping")]

/-- The text of a message that is not JSON. -/
def malformedText : String := "\x7b\"type\":"

/-- A fragment of the JavaScript runtime over the rationals, defined on the three
texts above (`JSON.parse` throws on `malformedText`, as it does in JavaScript) and on
time values that are integral and in the range of `Date`.  The conversions of
non-string values are consulted by none of the examples. -/
def demoRuntime : JsRuntime ℚ :=
  { JSON_parse := fun text =>
      if text = tradeText then some tradePayload
      else if text = pingText then some pingPayload
      else none,
    toStringOf := fun _ => none,
    timeClip := fun n => n,
    timeValueOf := fun _ => none }

/-- The text of a trade batch whose single entry has an object as its symbol, an
object whose own `toString` property is a number. -/
def objectSymbolText : String :=
  "\x7b\"type\":\"trade\",\"data\":[\x7b\"p\":1,\"v\":1,\"t\":1,\"c\":[],\"s\":\x7b\"toString\":1\x7d\x7d]\x7d"

/-- The value `JSON.parse` returns for `objectSymbolText`. -/
def objectSymbolPayload : JsValue ℚ :=
  .obj [("type", .str "trade"),
        ("data", .arr [.obj [("p", .num 1), ("v", .num 1), ("t", .num 1),
                             ("c", .arr []), ("s", .obj [("toString", .num 1)])]])]

/-- A fragment of the JavaScript runtime over the rationals, defined on
`objectSymbolText` and on the string conversion of objects: an object with an own
`toString` property (never callable in parsed JSON) cannot be converted, since the
inherited `valueOf` returns the object itself, and the conversion throws a
`TypeError`; any other object converts to `"[object Object]"`.  The conversions of
numbers and arrays are not consulted. -/
def objectRuntime : JsRuntime ℚ :=
  { JSON_parse := fun text =>
      if text = objectSymbolText then some objectSymbolPayload else none,
    toStringOf := fun v =>
      match v with
      | .obj fields =>
        match fields.lookup "toString" with
        | some _ => none
        | none => some "[object Object]"
      | _ => none,
    timeClip := fun n => n,
    timeValueOf := fun _ => none }

/-! ## Vocabulary of the statements -/

/-- One well-formed entry of a trade batch as the feed sends it:
`{p: number, v: number, t: number, c: [string], s: string}`. -/
structure WireTrade (Num : Type) where
  p : Num
  v : Num
  t : Num
  c : List String
  s : String

/-- The parsed value `entry` is an object whose properties `p`, `v`, `t`, `c`, `s`
hold the fields of `w` (it may hold other properties too, in any order). -/
def IsEntry (entry : JsValue Num) (w : WireTrade Num) : Prop :=
  getProp entry "p" = some (.num w.p) ∧
  getProp entry "v" = some (.num w.v) ∧
  getProp entry "t" = some (.num w.t) ∧
  getProp entry "c" = some (.arr (w.c.map .str)) ∧
  getProp entry "s" = some (.str w.s)

/-- The record the field mapping assigns to a wire entry: `p` to price, `v` to volume,
the instant built from `t` to timestamp, `c` joined with `", "` to conditions, `s` to
symbol. -/
def WireTrade.record (rt : JsRuntime Num) (w : WireTrade Num) : TradeRecord Num :=
  { price := .num w.p, volume := .num w.v, timestamp := ⟨rt.timeClip w.t⟩,
    conditions := ", ".intercalate w.c, symbol := .str w.s }

/-- Whether, in a sequence of events delivered after mount, the timer expires before
any message has been handled. -/
def timeoutFires : List Event → Bool
  | [] => false
  | .message _ :: _ => false
  | .timerExpired :: _ => true
  | .transportError :: rest => timeoutFires rest

/-- The state on which lines 36-47 run: lines 30-34 have set `hasReceivedData` and
cleared the timer. -/
def received (s : State Num) : State Num :=
  if truthyRef s.timeoutRef then
    clearTimeout s.timeoutRef { s with hasReceivedData := true }
  else { s with hasReceivedData := true }

/-! ## Basic facts about the handlers -/

theorem clearTimeout_trades (h : Option Nat) (s : State Num) :
    (clearTimeout h s).trades = s.trades := by
  unfold clearTimeout; split <;> rfl

theorem clearTimeout_loading (h : Option Nat) (s : State Num) :
    (clearTimeout h s).loading = s.loading := by
  unfold clearTimeout; split <;> rfl

theorem clearTimeout_error (h : Option Nat) (s : State Num) :
    (clearTimeout h s).error = s.error := by
  unfold clearTimeout; split <;> rfl

theorem clearTimeout_hasReceivedData (h : Option Nat) (s : State Num) :
    (clearTimeout h s).hasReceivedData = s.hasReceivedData := by
  unfold clearTimeout; split <;> rfl

theorem clearTimeout_timeoutRef (h : Option Nat) (s : State Num) :
    (clearTimeout h s).timeoutRef = s.timeoutRef := by
  unfold clearTimeout; split <;> rfl

theorem clearTimeout_closeCalls (h : Option Nat) (s : State Num) :
    (clearTimeout h s).closeCalls = s.closeCalls := by
  unfold clearTimeout; split <;> rfl

theorem clearTimeout_pendingTimer (h : Option Nat) (s : State Num) :
    (clearTimeout h s).pendingTimer = none ∨
      (clearTimeout h s).pendingTimer = s.pendingTimer := by
  unfold clearTimeout; split
  · exact Or.inl rfl
  · exact Or.inr rfl

theorem onmessage_eq (rt : JsRuntime Num) (s : State Num) (eventData : String) :
    onmessage rt s eventData =
      match processMessage rt (received s) eventData with
      | some s3 => s3
      | none => { received s with error := some processingMessage, loading := false } := rfl

theorem received_trades (s : State Num) : (received s).trades = s.trades := by
  unfold received; split
  · rw [clearTimeout_trades]
  · rfl

theorem received_loading (s : State Num) : (received s).loading = s.loading := by
  unfold received; split
  · rw [clearTimeout_loading]
  · rfl

theorem received_error (s : State Num) : (received s).error = s.error := by
  unfold received; split
  · rw [clearTimeout_error]
  · rfl

theorem received_hasReceivedData (s : State Num) : (received s).hasReceivedData = true := by
  unfold received; split
  · rw [clearTimeout_hasReceivedData]
  · rfl

theorem received_timeoutRef (s : State Num) : (received s).timeoutRef = s.timeoutRef := by
  unfold received; split
  · rw [clearTimeout_timeoutRef]
  · rfl

theorem received_closeCalls (s : State Num) : (received s).closeCalls = s.closeCalls := by
  unfold received; split
  · rw [clearTimeout_closeCalls]
  · rfl

theorem received_pendingTimer (s : State Num) :
    (received s).pendingTimer = none ∨ (received s).pendingTimer = s.pendingTimer := by
  unfold received; split
  · exact clearTimeout_pendingTimer _ _
  · exact Or.inr rfl

/-- The body of the `try` block changes at most `trades` and `loading`: it either
leaves the state alone or appends a batch and clears `loading`. -/
theorem processMessage_some (rt : JsRuntime Num) (s s3 : State Num) (eventData : String)
    (h : processMessage rt s eventData = some s3) :
    s3 = s ∨ ∃ tradeData, s3 = { s with trades := s.trades ++ tradeData, loading := false } := by
  unfold processMessage at h
  split at h
  · exact absurd h (by simp)
  · split at h
    · exact absurd h (by simp)
    · split at h
      · split at h
        · exact absurd h (by simp)
        · rename_i tradeData _
          exact Or.inr ⟨tradeData, (Option.some.inj h).symm⟩
      · exact Or.inl (Option.some.inj h).symm
    · exact Or.inl (Option.some.inj h).symm

/-- Whether the body of the `try` block throws does not depend on the state. -/
theorem processMessage_none_iff (rt : JsRuntime Num) (s t : State Num) (eventData : String) :
    processMessage rt s eventData = none ↔ processMessage rt t eventData = none := by
  unfold processMessage
  split
  · simp
  · split
    · simp
    · split
      · split <;> simp
      · simp
    · simp

theorem mapOrThrow_entries (rt : JsRuntime Num) (entries : List (JsValue Num))
    (batch : List (WireTrade Num)) (h : List.Forall₂ IsEntry entries batch) :
    mapOrThrow (toTradeRecord rt) entries = some (batch.map (WireTrade.record rt)) := by
  induction h with
  | nil => rfl
  | @cons entry w entries batch hw _ ih =>
    obtain ⟨hp, hv, ht, hc, hs⟩ := hw
    have hjoin : ∀ c : List String,
        mapOrThrow (joinElement rt) (c.map (@JsValue.str Num)) = some c := by
      intro c
      induction c with
      | nil => rfl
      | cons x xs ihc => simp [mapOrThrow, joinElement, jsToString, ihc]
    have hrec : toTradeRecord rt entry = some (WireTrade.record rt w) := by
      simp [toTradeRecord, hp, hv, ht, hc, hs, newDate, join, hjoin, WireTrade.record]
    simp [mapOrThrow, hrec, ih]

/-! ## The message handler -/

/-- Claim C1. For every prior state and every message whose payload parses to an object
with type tag "trade" and a data list of N well-formed entries, `onmessage` leaves
`trades` equal to the prior sequence followed by exactly the N records of the field
mapping, in the order of the batch, so the prior sequence is an initial segment of the
new one; it sets `loading` to false and does not change `error`; so when no error
message is held the view is Ready with the new sequence. -/
theorem C1_trade_batch_appended (rt : JsRuntime Num) (s : State Num) (eventData : String)
    (payload : JsValue Num) (entries : List (JsValue Num)) (batch : List (WireTrade Num))
    (hparse : rt.JSON_parse eventData = some payload)
    (htype : getProp payload "type" = some (.str "trade"))
    (hdata : getProp payload "data" = some (.arr entries))
    (hentries : List.Forall₂ IsEntry entries batch) :
    (onmessage rt s eventData).trades = s.trades ++ batch.map (WireTrade.record rt) ∧
    (batch.map (WireTrade.record rt)).length = entries.length ∧
    (onmessage rt s eventData).trades.length = s.trades.length + entries.length ∧
    s.trades <+: (onmessage rt s eventData).trades ∧
    (onmessage rt s eventData).loading = false ∧
    (onmessage rt s eventData).error = s.error ∧
    (truthyError s.error = false →
      viewState (onmessage rt s eventData) =
        .Ready (s.trades ++ batch.map (WireTrade.record rt))) := by
  have hlen : (batch.map (WireTrade.record rt)).length = entries.length := by
    rw [List.length_map]; exact hentries.length_eq.symm
  have hproc : processMessage rt (received s) eventData =
      some { received s with
        trades := (received s).trades ++ batch.map (WireTrade.record rt), loading := false } := by
    simp [processMessage, hparse, htype, hdata, mapTrades, mapOrThrow_entries rt entries batch hentries]
  have hon : onmessage rt s eventData =
      { received s with
        trades := (received s).trades ++ batch.map (WireTrade.record rt), loading := false } := by
    rw [onmessage_eq, hproc]
  have htr : (onmessage rt s eventData).trades = s.trades ++ batch.map (WireTrade.record rt) := by
    rw [hon]; simp [received_trades]
  have herr : (onmessage rt s eventData).error = s.error := by
    rw [hon]; simp [received_error]
  have hload : (onmessage rt s eventData).loading = false := by
    rw [hon]
  refine ⟨htr, hlen, ?_, ⟨_, htr.symm⟩, hload, herr, ?_⟩
  · rw [htr, List.length_append, hlen]
  · intro hno
    unfold viewState
    rw [herr, hno, hload, htr]
    simp

/-- Claim C1, at the example of the specification: the batch
`[{p:101.5, v:10, t:1700000000000, c:["@"], s:"AAPL"}]` received in the initial state
gives one record (101.5, 10, 1700000000000, "@", "AAPL") and the view Ready. -/
theorem C1_trade_batch_appended_witness :
    demoRuntime.JSON_parse tradeText = some tradePayload ∧
    (onmessage demoRuntime (mount 0) tradeText).trades =
      [{ price := .num 101.5, volume := .num 10, timestamp := ⟨1700000000000⟩,
         conditions := "@", symbol := .str "AAPL" }] ∧
    (onmessage demoRuntime (mount 0) tradeText).loading = false ∧
    (onmessage demoRuntime (mount 0) tradeText).error = none ∧
    viewState (onmessage demoRuntime (mount 0) tradeText) =
      .Ready [{ price := .num 101.5, volume := .num 10, timestamp := ⟨1700000000000⟩,
                conditions := "@", symbol := .str "AAPL" }] := by
  have h := C1_trade_batch_appended demoRuntime (mount 0) tradeText tradePayload
    [.obj [("p", .num 101.5), ("v", .num 10), ("t", .num 1700000000000),
           ("c", .arr [.str "@"]), ("s", .str "AAPL")]]
    [{ p := 101.5, v := 10, t := 1700000000000, c := ["@"], s := "AAPL" }]
    rfl rfl rfl (List.Forall₂.cons ⟨rfl, rfl, rfl, rfl, rfl⟩ List.Forall₂.nil)
  exact ⟨rfl, h.1, h.2.2.2.2.1, h.2.2.2.2.2.1, h.2.2.2.2.2.2 rfl⟩

/-- Claim C2. For every prior state and every message whose payload parses to an object
whose type tag is not "trade", `onmessage` leaves `trades`, `loading` and `error`, and
with them the view state, unchanged. -/
theorem C2_non_trade_message_ignored (rt : JsRuntime Num) (s : State Num)
    (eventData : String) (fields : List (String × JsValue Num))
    (hparse : rt.JSON_parse eventData = some (.obj fields))
    (htag : getProp (.obj fields) "type" ≠ some (.str "trade")) :
    (onmessage rt s eventData).trades = s.trades ∧
    (onmessage rt s eventData).loading = s.loading ∧
    (onmessage rt s eventData).error = s.error ∧
    viewState (onmessage rt s eventData) = viewState s := by
  have hproc : processMessage rt (received s) eventData = some (received s) := by
    unfold processMessage
    rw [hparse]
    simp only
    split
    · rename_i h; simp [getProp] at h
    · rename_i tag h
      split
      · rename_i htrade
        rw [htrade] at h
        exact absurd h htag
      · rfl
    · rfl
  have hon : onmessage rt s eventData = received s := by
    rw [onmessage_eq, hproc]
  refine ⟨?_, ?_, ?_, ?_⟩
  · rw [hon, received_trades]
  · rw [hon, received_loading]
  · rw [hon, received_error]
  · unfold viewState
    rw [hon, received_trades, received_loading, received_error]

/-- Claim C2, at a concrete input: a "ping" message received after a trade batch. -/
theorem C2_non_trade_message_ignored_witness :
    demoRuntime.JSON_parse pingText = some (.obj [("type", .str "ping")]) ∧
    (onmessage demoRuntime (onmessage demoRuntime (mount 0) tradeText) pingText).trades =
      (onmessage demoRuntime (mount 0) tradeText).trades ∧
    (onmessage demoRuntime (onmessage demoRuntime (mount 0) tradeText) pingText).loading = false ∧
    (onmessage demoRuntime (onmessage demoRuntime (mount 0) tradeText) pingText).error = none := by
  have h := C2_non_trade_message_ignored demoRuntime (onmessage demoRuntime (mount 0) tradeText)
    pingText [("type", .str "ping")] rfl (by simp [getProp, List.lookup])
  exact ⟨rfl, h.1, h.2.1, h.2.2.1⟩

/-- Claim C3. For every prior state (Loading or Ready in particular), with any
accumulated sequence, a message whose data is not valid JSON sets the error message
"Error processing trade data" and `loading` to false, so that the view is Error with
that message, and leaves the accumulated sequence unchanged. -/
theorem C3_malformed_message (rt : JsRuntime Num) (s : State Num) (eventData : String)
    (hparse : rt.JSON_parse eventData = none) :
    (onmessage rt s eventData).error = some "Error processing trade data" ∧
    (onmessage rt s eventData).loading = false ∧
    (onmessage rt s eventData).trades = s.trades ∧
    viewState (onmessage rt s eventData) = .Error "Error processing trade data" := by
  have hproc : processMessage rt (received s) eventData = none := by
    simp [processMessage, hparse]
  have hon : onmessage rt s eventData =
      { received s with error := some processingMessage, loading := false } := by
    rw [onmessage_eq, hproc]
  refine ⟨?_, ?_, ?_, ?_⟩
  · rw [hon]; rfl
  · rw [hon]
  · rw [hon]; exact received_trades s
  · rw [hon]; rfl

/-- Claim C3, at concrete inputs: a malformed message in the Loading state and in a
Ready state holding one record. -/
theorem C3_malformed_message_witness :
    demoRuntime.JSON_parse malformedText = none ∧
    viewState (mount 0 : State ℚ) = .Loading ∧
    viewState (onmessage demoRuntime (mount 0) malformedText) =
      .Error "Error processing trade data" ∧
    (onmessage demoRuntime (onmessage demoRuntime (mount 0) tradeText) malformedText).trades =
      (onmessage demoRuntime (mount 0) tradeText).trades ∧
    viewState (onmessage demoRuntime (onmessage demoRuntime (mount 0) tradeText) malformedText) =
      .Error "Error processing trade data" :=
  ⟨rfl, rfl, (C3_malformed_message demoRuntime (mount 0) malformedText rfl).2.2.2,
    (C3_malformed_message demoRuntime (onmessage demoRuntime (mount 0) tradeText)
      malformedText rfl).2.2.1,
    (C3_malformed_message demoRuntime (onmessage demoRuntime (mount 0) tradeText)
      malformedText rfl).2.2.2⟩

/-! ## Rendering -/

/-- Claim C9, as stated, fails: the title text of line 97 is computed before the guards
of lines 142 and 150, and it cannot be computed when the first record's symbol is an
object that does not convert to a string.  After such a batch the state holds one
record, no error and `loading` false, yet the component throws instead of returning
the chart; after a transport error in that state an error message is set, yet the
component throws instead of returning the error view. -/
theorem C9_render_throws_counterexample :
    objectRuntime.JSON_parse objectSymbolText = some objectSymbolPayload ∧
    (onmessage objectRuntime (mount 0) objectSymbolText).trades.length = 1 ∧
    (onmessage objectRuntime (mount 0) objectSymbolText).error = none ∧
    (onmessage objectRuntime (mount 0) objectSymbolText).loading = false ∧
    render objectRuntime (onmessage objectRuntime (mount 0) objectSymbolText) = none ∧
    (onerror (onmessage objectRuntime (mount 0) objectSymbolText)).error =
      some "Connection error occurred" ∧
    render objectRuntime (onerror (onmessage objectRuntime (mount 0) objectSymbolText)) =
      none := by
  refine ⟨rfl, rfl, rfl, rfl, rfl, rfl, rfl⟩

/-- Claim C9, amended. The component first computes the title text of line 97; this
fails exactly when the sequence is non-empty and the symbol of its first record does
not convert to a string (a string symbol always converts), and then the component
throws, whatever `error` and `loading` are.  Otherwise the rendered view is a function
of the state alone: when an error message is set (a non-empty string) it is the error
view showing that message; otherwise, when `loading` holds, it is the spinner;
otherwise it is the chart whose labels are the records' timestamps and whose single
dataset, labelled "Price", holds the records' prices, both in sequence order and as
long as the sequence, and whose title is "Trade Chart" for the empty sequence and
"Symbol : " followed by the symbol of the first record otherwise. -/
theorem C9_render_rule (rt : JsRuntime Num) (s : State Num) :
    (chartTitle rt s.trades = none ↔
      ∃ first rest, s.trades = first :: rest ∧ jsToString rt first.symbol = none) ∧
    (chartTitle rt s.trades = none → render rt s = none) ∧
    (∀ sym : String, jsToString rt (.str sym) = some sym) ∧
    (∀ title, chartTitle rt s.trades = some title →
      (∀ msg, s.error = some msg → msg ≠ "" → render rt s = some (.errorView msg)) ∧
      ((s.error = none ∨ s.error = some "") → s.loading = true →
        render rt s = some .spinner) ∧
      ((s.error = none ∨ s.error = some "") → s.loading = false →
        render rt s = some (.chart
          { labels := s.trades.map (fun trade => trade.timestamp),
            datasets :=
              [{ label := "Price", data := s.trades.map (fun trade => trade.price) }] }
          title)) ∧
      (chartData s.trades).labels.length = s.trades.length ∧
      (chartData s.trades).datasets.length = 1 ∧
      (∀ d ∈ (chartData s.trades).datasets,
        d.label = "Price" ∧ d.data.length = s.trades.length) ∧
      (s.trades = [] → title = "Trade Chart") ∧
      (∀ first rest sym, s.trades = first :: rest → jsToString rt first.symbol = some sym →
        title = "Symbol : " ++ sym)) := by
  have hfalsy : (s.error = none ∨ s.error = some "") → truthyError s.error = false := by
    rintro (h | h) <;> rw [h] <;> rfl
  refine ⟨?_, ?_, fun _ => rfl, ?_⟩
  · constructor
    · intro hnone
      cases htr : s.trades with
      | nil => rw [htr] at hnone; exact absurd hnone (by simp [chartTitle])
      | cons first rest =>
        refine ⟨first, rest, rfl, ?_⟩
        rw [htr] at hnone
        cases hsym : jsToString rt first.symbol with
        | none => rfl
        | some sym => simp [chartTitle, hsym] at hnone
    · rintro ⟨first, rest, htr, hsym⟩
      rw [htr]
      simp [chartTitle, hsym]
  · intro hnone
    simp [render, hnone]
  · intro title htitle
    refine ⟨?_, ?_, ?_, ?_, ?_, ?_, ?_, ?_⟩
    · intro msg hmsg hne
      simp [render, htitle, hmsg, truthyError, hne]
    · intro herr hload
      simp [render, htitle, hfalsy herr, hload]
    · intro herr hload
      simp [render, htitle, hfalsy herr, hload, chartData]
    · simp [chartData]
    · simp [chartData]
    · intro d hd
      simp [chartData] at hd
      subst hd
      simp
    · intro hnil
      rw [hnil] at htitle
      exact (Option.some.inj htitle).symm
    · intro first rest sym hcons hsym
      rw [hcons] at htitle
      simp [chartTitle, hsym] at htitle
      exact htitle.symm

/-- Claim C9 amended, at concrete inputs: the three views of the initial state, of the
state after a malformed message and of the state after the example batch, and the
throw for a first symbol that does not convert to a string. -/
theorem C9_render_rule_witness :
    chartTitle demoRuntime (onmessage demoRuntime (mount 0) tradeText).trades =
      some "Symbol : AAPL" ∧
    render demoRuntime (onmessage demoRuntime (mount 0) tradeText) =
      some (.chart { labels := [⟨1700000000000⟩],
                     datasets := [{ label := "Price", data := [.num 101.5] }] }
              "Symbol : AAPL") ∧
    render demoRuntime (mount 0) = some .spinner ∧
    render demoRuntime (onmessage demoRuntime (mount 0) malformedText) =
      some (.errorView "Error processing trade data") ∧
    render objectRuntime (onmessage objectRuntime (mount 0) objectSymbolText) = none :=
  ⟨rfl,
    ((C9_render_rule demoRuntime (onmessage demoRuntime (mount 0) tradeText)).2.2.2
      "Symbol : AAPL" rfl).2.2.1 (Or.inl rfl) rfl,
    ((C9_render_rule demoRuntime (mount 0)).2.2.2 "Trade Chart" rfl).2.1 (Or.inl rfl) rfl,
    ((C9_render_rule demoRuntime (onmessage demoRuntime (mount 0) malformedText)).2.2.2
      "Trade Chart" rfl).1 "Error processing trade data" rfl (by decide),
    (C9_render_rule objectRuntime (onmessage objectRuntime (mount 0) objectSymbolText)).2.1
      rfl⟩

/-! ## Facts about single events and event sequences -/

theorem onmessage_cases (rt : JsRuntime Num) (s : State Num) (eventData : String) :
    onmessage rt s eventData = received s ∨
    (∃ tradeData, onmessage rt s eventData =
      { received s with trades := (received s).trades ++ tradeData, loading := false }) ∨
    (processMessage rt (received s) eventData = none ∧
      onmessage rt s eventData =
        { received s with error := some processingMessage, loading := false }) := by
  rw [onmessage_eq]
  cases h : processMessage rt (received s) eventData with
  | none => exact Or.inr (Or.inr ⟨rfl, rfl⟩)
  | some s3 =>
    rcases processMessage_some rt _ _ _ h with h3 | ⟨tradeData, h3⟩
    · exact Or.inl h3
    · exact Or.inr (Or.inl ⟨tradeData, h3⟩)

theorem onmessage_hasReceivedData (rt : JsRuntime Num) (s : State Num) (eventData : String) :
    (onmessage rt s eventData).hasReceivedData = true := by
  rcases onmessage_cases rt s eventData with h | ⟨_, h⟩ | ⟨_, h⟩ <;> rw [h] <;>
    exact received_hasReceivedData s

theorem onmessage_closeCalls (rt : JsRuntime Num) (s : State Num) (eventData : String) :
    (onmessage rt s eventData).closeCalls = s.closeCalls := by
  rcases onmessage_cases rt s eventData with h | ⟨_, h⟩ | ⟨_, h⟩ <;> rw [h] <;>
    exact received_closeCalls s

theorem onmessage_timeoutRef (rt : JsRuntime Num) (s : State Num) (eventData : String) :
    (onmessage rt s eventData).timeoutRef = s.timeoutRef := by
  rcases onmessage_cases rt s eventData with h | ⟨_, h⟩ | ⟨_, h⟩ <;> rw [h] <;>
    exact received_timeoutRef s

theorem onmessage_pendingTimer (rt : JsRuntime Num) (s : State Num) (eventData : String) :
    (onmessage rt s eventData).pendingTimer = (received s).pendingTimer := by
  rcases onmessage_cases rt s eventData with h | ⟨_, h⟩ | ⟨_, h⟩ <;> rw [h]

theorem onmessage_error (rt : JsRuntime Num) (s : State Num) (eventData : String) :
    (onmessage rt s eventData).error = s.error ∨
    (onmessage rt s eventData).error = some processingMessage := by
  rcases onmessage_cases rt s eventData with h | ⟨_, h⟩ | ⟨_, h⟩
  · left; rw [h]; exact received_error s
  · left; rw [h]; exact received_error s
  · right; rw [h]

theorem step_message (rt : JsRuntime Num) (s : State Num) (eventData : String) :
    step rt s (.message eventData) = onmessage rt s eventData := rfl

theorem step_transportError (rt : JsRuntime Num) (s : State Num) :
    step rt s .transportError =
      { s with error := some connectionMessage, loading := false,
               closeCalls := s.closeCalls + 1 } := rfl

/-- The three ways a timer event can go: no timer is pending; the callback runs after
data was received and does nothing; the callback runs and takes effect. -/
theorem step_timer_cases (rt : JsRuntime Num) (s : State Num) :
    (s.pendingTimer = none ∧ step rt s .timerExpired = s) ∨
    (s.pendingTimer ≠ none ∧ s.hasReceivedData = true ∧
      step rt s .timerExpired = { s with pendingTimer := none }) ∨
    (s.pendingTimer ≠ none ∧ s.hasReceivedData = false ∧
      step rt s .timerExpired =
        { s with pendingTimer := none, error := some timeoutMessage, loading := false,
                 closeCalls := s.closeCalls + 1 }) := by
  cases hp : s.pendingTimer with
  | none => exact Or.inl ⟨rfl, by simp [step, hp]⟩
  | some t =>
    cases hr : s.hasReceivedData with
    | true =>
      exact Or.inr (Or.inl ⟨by simp, rfl, by simp [step, hp, timeoutCallback, hr]⟩)
    | false =>
      exact Or.inr (Or.inr ⟨by simp, rfl, by simp [step, hp, timeoutCallback, hr, close]⟩)

theorem step_timeoutRef (rt : JsRuntime Num) (s : State Num) (e : Event) :
    (step rt s e).timeoutRef = s.timeoutRef := by
  cases e with
  | message eventData => exact onmessage_timeoutRef rt s eventData
  | transportError => rfl
  | timerExpired =>
    rcases step_timer_cases rt s with ⟨_, h⟩ | ⟨_, _, h⟩ | ⟨_, _, h⟩ <;> rw [h]

theorem step_pendingTimer (rt : JsRuntime Num) (s : State Num) (e : Event) :
    (step rt s e).pendingTimer = none ∨ (step rt s e).pendingTimer = s.pendingTimer := by
  cases e with
  | message eventData =>
    rw [step_message, onmessage_pendingTimer]
    exact received_pendingTimer s
  | transportError => exact Or.inr rfl
  | timerExpired =>
    rcases step_timer_cases rt s with ⟨_, h⟩ | ⟨_, _, h⟩ | ⟨_, _, h⟩ <;> rw [h]
    · exact Or.inr rfl
    · exact Or.inl rfl
    · exact Or.inl rfl

/-- Every event either clears `loading` or leaves `loading`, `error` and `trades` as
they were. -/
theorem step_loading_cases (rt : JsRuntime Num) (s : State Num) (e : Event) :
    (step rt s e).loading = false ∨
    ((step rt s e).loading = s.loading ∧ (step rt s e).error = s.error ∧
      (step rt s e).trades = s.trades) := by
  cases e with
  | message eventData =>
    rw [step_message]
    rcases onmessage_cases rt s eventData with h | ⟨_, h⟩ | ⟨_, h⟩
    · right; rw [h]; exact ⟨received_loading s, received_error s, received_trades s⟩
    · left; rw [h]
    · left; rw [h]
  | transportError => exact Or.inl rfl
  | timerExpired =>
    rcases step_timer_cases rt s with ⟨_, h⟩ | ⟨_, _, h⟩ | ⟨_, _, h⟩ <;> rw [h]
    · exact Or.inr ⟨rfl, rfl, rfl⟩
    · exact Or.inr ⟨rfl, rfl, rfl⟩
    · exact Or.inl rfl

/-- An event leaves the error message as it is unless it is a message whose processing
throws, a transport error, or the expiry of a pending timer while no data has been
received; each of these sets its own fixed message. -/
theorem step_error_cases (rt : JsRuntime Num) (s : State Num) (e : Event) :
    (step rt s e).error = s.error ∨
    ((step rt s e).error = some processingMessage ∧
      ∃ eventData, e = .message eventData ∧ processMessage rt s eventData = none) ∨
    ((step rt s e).error = some connectionMessage ∧ e = .transportError) ∨
    ((step rt s e).error = some timeoutMessage ∧ e = .timerExpired ∧
      s.hasReceivedData = false ∧ s.pendingTimer ≠ none) := by
  cases e with
  | message eventData =>
    rw [step_message]
    rcases onmessage_cases rt s eventData with h | ⟨_, h⟩ | ⟨hnone, h⟩
    · left; rw [h]; exact received_error s
    · left; rw [h]; exact received_error s
    · right; left
      refine ⟨by rw [h], eventData, rfl, ?_⟩
      exact (processMessage_none_iff rt (received s) s eventData).1 hnone
  | transportError => exact Or.inr (Or.inr (Or.inl ⟨rfl, rfl⟩))
  | timerExpired =>
    rcases step_timer_cases rt s with ⟨_, h⟩ | ⟨_, _, h⟩ | ⟨hp, hr, h⟩ <;> rw [h]
    · exact Or.inl rfl
    · exact Or.inl rfl
    · exact Or.inr (Or.inr (Or.inr ⟨rfl, rfl, hr, hp⟩))

theorem run_append (rt : JsRuntime Num) (s : State Num) (es₁ es₂ : List Event) :
    run rt s (es₁ ++ es₂) = run rt (run rt s es₁) es₂ := by
  unfold run; rw [List.foldl_append]

theorem run_cons (rt : JsRuntime Num) (s : State Num) (e : Event) (es : List Event) :
    run rt s (e :: es) = run rt (step rt s e) es := rfl

theorem run_timeoutRef (rt : JsRuntime Num) (s : State Num) (es : List Event) :
    (run rt s es).timeoutRef = s.timeoutRef := by
  induction es generalizing s with
  | nil => rfl
  | cons e es ih => rw [run_cons, ih, step_timeoutRef]

theorem run_pendingTimer (rt : JsRuntime Num) (s : State Num) (es : List Event) :
    (run rt s es).pendingTimer = none ∨ (run rt s es).pendingTimer = s.pendingTimer := by
  induction es generalizing s with
  | nil => exact Or.inr rfl
  | cons e es ih =>
    rw [run_cons]
    rcases ih (step rt s e) with h | h
    · exact Or.inl h
    · rcases step_pendingTimer rt s e with h' | h'
      · left; rw [h, h']
      · right; rw [h, h']

theorem step_hasReceivedData (rt : JsRuntime Num) (s : State Num) (e : Event)
    (h : s.hasReceivedData = true) : (step rt s e).hasReceivedData = true := by
  cases e with
  | message eventData => exact onmessage_hasReceivedData rt s eventData
  | transportError => exact h
  | timerExpired =>
    rcases step_timer_cases rt s with ⟨_, h'⟩ | ⟨_, _, h'⟩ | ⟨_, _, h'⟩ <;> rw [h'] <;> exact h

theorem viewState_error_iff (s : State Num) (msg : String) :
    viewState s = .Error msg ↔ s.error = some msg ∧ msg ≠ "" := by
  unfold viewState
  cases herr : s.error with
  | none =>
    simp only [truthyError]
    cases s.loading <;> simp
  | some m =>
    by_cases hm : m = ""
    · subst hm
      simp only [truthyError]
      cases s.loading <;> simp <;> exact fun h => h.symm
    · simp [truthyError, hm]
      intro h; subst h; exact hm

theorem processingMessage_ne : processingMessage ≠ timeoutMessage := by decide

theorem connectionMessage_ne : connectionMessage ≠ timeoutMessage := by decide

/-- While the timer has not expired, the timeout message is not shown. -/
theorem run_error_before_timer (rt : JsRuntime Num) (s : State Num) (es : List Event)
    (hs : s.error ≠ some timeoutMessage) (hes : ∀ e ∈ es, e ≠ Event.timerExpired) :
    (run rt s es).error ≠ some timeoutMessage := by
  induction es generalizing s with
  | nil => exact hs
  | cons e es ih =>
    rw [run_cons]
    apply ih
    · rcases step_error_cases rt s e with h | ⟨h, _⟩ | ⟨h, _⟩ | ⟨_, he, _, _⟩
      · rw [h]; exact hs
      · rw [h]; intro hc; exact processingMessage_ne (Option.some.inj hc)
      · rw [h]; intro hc; exact connectionMessage_ne (Option.some.inj hc)
      · exact absurd he (hes e (List.mem_cons_self _ _))
    · intro e' he'
      exact hes e' (List.mem_cons_of_mem _ he')

/-- Once data has been received and the timer is disarmed, both stay so and the
timeout message is never set. -/
theorem run_after_data (rt : JsRuntime Num) (s : State Num) (es : List Event)
    (hr : s.hasReceivedData = true) (hp : s.pendingTimer = none)
    (he : s.error ≠ some timeoutMessage) :
    (run rt s es).hasReceivedData = true ∧ (run rt s es).pendingTimer = none ∧
    (run rt s es).error ≠ some timeoutMessage := by
  induction es generalizing s with
  | nil => exact ⟨hr, hp, he⟩
  | cons e es ih =>
    rw [run_cons]
    apply ih
    · exact step_hasReceivedData rt s e hr
    · rcases step_pendingTimer rt s e with h | h
      · exact h
      · rw [h]; exact hp
    · rcases step_error_cases rt s e with h | ⟨h, _⟩ | ⟨h, _⟩ | ⟨_, _, hf, _⟩
      · rw [h]; exact he
      · rw [h]; intro hc; exact processingMessage_ne (Option.some.inj hc)
      · rw [h]; intro hc; exact connectionMessage_ne (Option.some.inj hc)
      · rw [hr] at hf; exact absurd hf (by simp)

/-- In a state of a mounted component the message handler clears the timer. -/
theorem received_disarms (s : State Num) (k : Nat) (href : s.timeoutRef = some (k + 1))
    (hp : s.pendingTimer = none ∨ s.pendingTimer = some (k + 1)) :
    (received s).pendingTimer = none := by
  unfold received
  rw [href]
  have htruthy : truthyRef (some (k + 1)) = true := by simp [truthyRef]
  rw [if_pos htruthy]
  unfold clearTimeout
  rcases hp with hp | hp
  · split
    · rfl
    · exact hp
  · rw [if_pos hp]

/-- In a state of a mounted component the cleanup clears the timer and closes the
connection. -/
theorem cleanup_eq (s : State Num) (k : Nat) (href : s.timeoutRef = some (k + 1))
    (hp : s.pendingTimer = none ∨ s.pendingTimer = some (k + 1)) :
    cleanup s = { s with pendingTimer := none, closeCalls := s.closeCalls + 1 } := by
  unfold cleanup
  rw [href]
  have htruthy : truthyRef (some (k + 1)) = true := by simp [truthyRef]
  simp only [htruthy, if_true]
  unfold clearTimeout close
  rcases hp with hp | hp
  · simp [hp, href]
  · simp [hp, href]

theorem mount_run_timeoutRef (rt : JsRuntime Num) (k : Nat) (es : List Event) :
    (run rt (mount k) es).timeoutRef = some (k + 1) := by
  rw [run_timeoutRef]; rfl

theorem mount_run_pendingTimer (rt : JsRuntime Num) (k : Nat) (es : List Event) :
    (run rt (mount k) es).pendingTimer = none ∨
    (run rt (mount k) es).pendingTimer = some (k + 1) := by
  rcases run_pendingTimer rt (mount k) es with h | h
  · exact Or.inl h
  · exact Or.inr (by rw [h]; rfl)

/-- Transport errors alone leave the timer and `hasReceivedData` as they are; each one
closes the connection once more. -/
theorem run_transportErrors (rt : JsRuntime Num) (s : State Num) (es : List Event)
    (hes : ∀ e ∈ es, e = Event.transportError) :
    (run rt s es).hasReceivedData = s.hasReceivedData ∧
    (run rt s es).pendingTimer = s.pendingTimer ∧
    (run rt s es).closeCalls = s.closeCalls + es.length := by
  induction es generalizing s with
  | nil => exact ⟨rfl, rfl, rfl⟩
  | cons e es ih =>
    have he : e = Event.transportError := hes e (List.mem_cons_self _ _)
    subst he
    rw [run_cons]
    obtain ⟨h1, h2, h3⟩ := ih (step rt s .transportError)
      (fun e' he' => hes e' (List.mem_cons_of_mem _ he'))
    refine ⟨h1, h2, ?_⟩
    rw [h3, step_transportError, List.length_cons]
    simp only
    omega

/-- The number of `close` calls made by a sequence of events: one per transport error,
and one more if the timer is pending, no data has been received and the timer expires
before any message. -/
theorem run_closeCalls (rt : JsRuntime Num) (s : State Num) (es : List Event) :
    (run rt s es).closeCalls =
      s.closeCalls + es.count .transportError +
        (if s.pendingTimer ≠ none ∧ s.hasReceivedData = false ∧ timeoutFires es = true
          then 1 else 0) := by
  induction es generalizing s with
  | nil => simp [run, timeoutFires]
  | cons e es ih =>
    rw [run_cons, ih]
    cases e with
    | message eventData =>
      rw [step_message, onmessage_closeCalls, onmessage_hasReceivedData]
      simp [timeoutFires]
    | transportError =>
      rw [step_transportError]
      simp [timeoutFires]
      omega
    | timerExpired =>
      rcases step_timer_cases rt s with ⟨hp, h⟩ | ⟨hp, hr, h⟩ | ⟨hp, hr, h⟩ <;> rw [h]
      · simp [hp]
      · simp [hr]
      · simp [hp, hr, timeoutFires]
        omega

/-! ## The timeout guard -/

/-- Claim C4, as stated, fails: when a transport error is handled before the timer
fires (no message is delivered), `onerror` has already closed the connection and has
not cleared the timer, so the timer callback closes it a second time: two `close`
calls, not one. -/
theorem C4_close_count_counterexample :
    ([Event.transportError].all (fun e => !e.isMessage)) = true ∧
    (run demoRuntime (mount 0) [Event.transportError]).closeCalls = 1 ∧
    (run demoRuntime (mount 0) [Event.transportError]).pendingTimer = some 1 ∧
    (step demoRuntime (run demoRuntime (mount 0) [Event.transportError])
      Event.timerExpired).closeCalls = 2 := by
  refine ⟨rfl, rfl, rfl, rfl⟩

/-- Claim C4, amended. For every event sequence after mount in which no message is
delivered before the timer fires (so the events before it are transport errors), the
state after the timer fires is Error with the message "API server is not responding.
Please try again later."; `loading` is false; the timer callback closes the connection,
and the number of `close` calls up to and including it is one more than the number of
transport errors handled before: exactly one when none was. -/
theorem C4_timeout_without_message (rt : JsRuntime Num) (k : Nat) (es : List Event)
    (hes : ∀ e ∈ es, e = Event.transportError) :
    (step rt (run rt (mount k) es) .timerExpired).error =
      some "API server is not responding. Please try again later." ∧
    (step rt (run rt (mount k) es) .timerExpired).loading = false ∧
    viewState (step rt (run rt (mount k) es) .timerExpired) =
      .Error "API server is not responding. Please try again later." ∧
    (step rt (run rt (mount k) es) .timerExpired).closeCalls =
      (run rt (mount k) es).closeCalls + 1 ∧
    (step rt (run rt (mount k) es) .timerExpired).closeCalls = es.length + 1 ∧
    (es = [] → (step rt (run rt (mount k) es) .timerExpired).closeCalls = 1) := by
  obtain ⟨hr, hp, hc⟩ := run_transportErrors rt (mount k) es hes
  have hr' : (run rt (mount k) es).hasReceivedData = false := hr
  have hp' : (run rt (mount k) es).pendingTimer ≠ none := by rw [hp]; simp [mount]
  have hstep : step rt (run rt (mount k) es) .timerExpired =
      { run rt (mount k) es with
        pendingTimer := none, error := some timeoutMessage, loading := false,
        closeCalls := (run rt (mount k) es).closeCalls + 1 } := by
    rcases step_timer_cases rt (run rt (mount k) es) with ⟨h, _⟩ | ⟨_, h, _⟩ | ⟨_, _, h⟩
    · exact absurd h hp'
    · rw [hr'] at h; exact absurd h (by simp)
    · exact h
  have hcount : (step rt (run rt (mount k) es) .timerExpired).closeCalls = es.length + 1 := by
    rw [hstep]
    show (run rt (mount k) es).closeCalls + 1 = es.length + 1
    rw [hc]
    simp [mount]
  refine ⟨?_, ?_, ?_, ?_, hcount, ?_⟩
  · rw [hstep]; rfl
  · rw [hstep]
  · rw [hstep]; rfl
  · rw [hstep]
  · intro hnil
    rw [hcount, hnil]
    rfl

/-- Claim C4 amended, at concrete inputs: the timer fires with nothing before it, and
after one transport error. -/
theorem C4_timeout_without_message_witness :
    viewState (step demoRuntime (run demoRuntime (mount 0) []) .timerExpired) =
      .Error "API server is not responding. Please try again later." ∧
    (step demoRuntime (run demoRuntime (mount 0) []) .timerExpired).closeCalls = 1 ∧
    viewState (step demoRuntime (run demoRuntime (mount 0) [.transportError]) .timerExpired) =
      .Error "API server is not responding. Please try again later." :=
  ⟨(C4_timeout_without_message demoRuntime 0 [] (by simp)).2.2.1,
    (C4_timeout_without_message demoRuntime 0 [] (by simp)).2.2.2.2.2 rfl,
    (C4_timeout_without_message demoRuntime 0 [.transportError] (by simp)).2.2.1⟩

/-- Claim C5. For every event sequence in which a message (of any content) is handled
before the timer expires, the message handler disarms the timer, and in every later
state the timer is not pending, `hasReceivedData` holds, the error message is not the
timeout message, and neither a timer event nor a run of the timer callback changes the
state. -/
theorem C5_message_disarms_timeout (rt : JsRuntime Num) (k : Nat) (es₁ : List Event)
    (eventData : String) (es₂ : List Event)
    (hbefore : ∀ e ∈ es₁, e ≠ Event.timerExpired) :
    (run rt (mount k) (es₁ ++ [.message eventData])).pendingTimer = none ∧
    (run rt (mount k) (es₁ ++ .message eventData :: es₂)).pendingTimer = none ∧
    (run rt (mount k) (es₁ ++ .message eventData :: es₂)).hasReceivedData = true ∧
    (run rt (mount k) (es₁ ++ .message eventData :: es₂)).error ≠
      some "API server is not responding. Please try again later." ∧
    step rt (run rt (mount k) (es₁ ++ .message eventData :: es₂)) .timerExpired =
      run rt (mount k) (es₁ ++ .message eventData :: es₂) ∧
    timeoutCallback (run rt (mount k) (es₁ ++ .message eventData :: es₂)) =
      run rt (mount k) (es₁ ++ .message eventData :: es₂) := by
  have hmsg : (onmessage rt (run rt (mount k) es₁) eventData).hasReceivedData = true ∧
      (onmessage rt (run rt (mount k) es₁) eventData).pendingTimer = none ∧
      (onmessage rt (run rt (mount k) es₁) eventData).error ≠ some timeoutMessage := by
    refine ⟨onmessage_hasReceivedData _ _ _, ?_, ?_⟩
    · rw [onmessage_pendingTimer]
      exact received_disarms _ k (mount_run_timeoutRef rt k es₁) (mount_run_pendingTimer rt k es₁)
    · have hpre : (run rt (mount k) es₁).error ≠ some timeoutMessage :=
        run_error_before_timer rt (mount k) es₁ (by simp [mount]) hbefore
      rcases onmessage_error rt (run rt (mount k) es₁) eventData with h | h
      · rw [h]; exact hpre
      · rw [h]; intro hc; exact processingMessage_ne (Option.some.inj hc)
  have hall : ∀ es, run rt (mount k) (es₁ ++ .message eventData :: es) =
      run rt (onmessage rt (run rt (mount k) es₁) eventData) es := by
    intro es
    rw [run_append, run_cons, step_message]
  obtain ⟨h1, h2, h3⟩ := run_after_data rt _ es₂ hmsg.1 hmsg.2.1 hmsg.2.2
  refine ⟨?_, ?_, ?_, ?_, ?_, ?_⟩
  · rw [hall []]; exact hmsg.2.1
  · rw [hall]; exact h2
  · rw [hall]; exact h1
  · rw [hall]; exact h3
  · rw [hall]
    rcases step_timer_cases rt (run rt (onmessage rt (run rt (mount k) es₁) eventData) es₂)
      with ⟨_, h⟩ | ⟨hp, _, _⟩ | ⟨hp, _, _⟩
    · exact h
    · exact absurd h2 hp
    · exact absurd h2 hp
  · rw [hall]
    unfold timeoutCallback
    rw [h1]
    rfl

/-- Claim C5, at concrete inputs: the example batch arrives first, then a message that
is not a trade batch; the timer is disarmed by the first message and the error message
stays null. -/
theorem C5_message_disarms_timeout_witness :
    (mount 0 : State ℚ).pendingTimer = some 1 ∧
    (run demoRuntime (mount 0) [.message tradeText]).pendingTimer = none ∧
    (run demoRuntime (mount 0) [.message tradeText, .message pingText]).pendingTimer = none ∧
    (run demoRuntime (mount 0) [.message tradeText, .message pingText]).hasReceivedData = true ∧
    (run demoRuntime (mount 0) [.message tradeText, .message pingText]).error = none :=
  ⟨rfl,
    (C5_message_disarms_timeout demoRuntime 0 [] tradeText [] (by simp)).1,
    (C5_message_disarms_timeout demoRuntime 0 [] tradeText [.message pingText]
      (by simp)).2.1,
    (C5_message_disarms_timeout demoRuntime 0 [] tradeText [.message pingText]
      (by simp)).2.2.1,
    rfl⟩

/-! ## The Error state and the connection -/

/-- Claim C6, as stated, fails: after a transport error the view is Error with the
connection message, the timer is still pending, and when it expires the view is Error
with a different message (the timeout message). -/
theorem C6_error_message_counterexample :
    viewState (run demoRuntime (mount 0) [Event.transportError]) =
      .Error "Connection error occurred" ∧
    viewState (step demoRuntime (run demoRuntime (mount 0) [Event.transportError])
      Event.timerExpired) =
      .Error "API server is not responding. Please try again later." ∧
    ("Connection error occurred" ≠ "API server is not responding. Please try again later.") := by
  refine ⟨rfl, rfl, by decide⟩

/-- Claim C6, amended. For every state whose view is Error and every subsequent event
(message, transport error, timer expiry) the view after the event is still Error: an
error message remains set.  The message is the same, except where the event itself sets
one: the expiry of a still pending timer while no data has been received sets the
timeout message, a transport error sets the connection message, and a message whose
processing throws sets the processing message. -/
theorem C6_error_view_persists (rt : JsRuntime Num) (s : State Num) (msg : String)
    (e : Event) (hview : viewState s = .Error msg) :
    ∃ msg', viewState (step rt s e) = .Error msg' ∧
      (msg' = msg ∨
       (msg' = "API server is not responding. Please try again later." ∧
          e = .timerExpired ∧ s.pendingTimer ≠ none ∧ s.hasReceivedData = false) ∨
       (msg' = "Connection error occurred" ∧ e = .transportError) ∨
       (msg' = "Error processing trade data" ∧
          ∃ eventData, e = .message eventData ∧ processMessage rt s eventData = none)) := by
  obtain ⟨herr, hne⟩ := (viewState_error_iff s msg).1 hview
  rcases step_error_cases rt s e with h | ⟨h, hm⟩ | ⟨h, he⟩ | ⟨h, he, hr, hp⟩
  · exact ⟨msg, (viewState_error_iff _ _).2 ⟨by rw [h, herr], hne⟩, Or.inl rfl⟩
  · exact ⟨processingMessage, (viewState_error_iff _ _).2 ⟨h, by decide⟩,
      Or.inr (Or.inr (Or.inr ⟨rfl, hm⟩))⟩
  · exact ⟨connectionMessage, (viewState_error_iff _ _).2 ⟨h, by decide⟩,
      Or.inr (Or.inr (Or.inl ⟨rfl, he⟩))⟩
  · exact ⟨timeoutMessage, (viewState_error_iff _ _).2 ⟨h, by decide⟩,
      Or.inr (Or.inl ⟨rfl, he, hp, hr⟩)⟩

/-- Claim C6 amended, at a concrete input: in the Error state entered by a transport
error the view stays Error when the timer expires. -/
theorem C6_error_view_persists_witness :
    viewState (onerror (mount 0 : State ℚ)) = .Error "Connection error occurred" ∧
    (∃ msg', viewState (step demoRuntime (onerror (mount 0)) .timerExpired) = .Error msg' ∧
      (msg' = "Connection error occurred" ∨
       (msg' = "API server is not responding. Please try again later." ∧
          Event.timerExpired = Event.timerExpired ∧
          (onerror (mount 0 : State ℚ)).pendingTimer ≠ none ∧
          (onerror (mount 0 : State ℚ)).hasReceivedData = false) ∨
       (msg' = "Connection error occurred" ∧ Event.timerExpired = Event.transportError) ∨
       (msg' = "Error processing trade data" ∧
          ∃ eventData, Event.timerExpired = Event.message eventData ∧
            processMessage demoRuntime (onerror (mount 0)) eventData = none))) :=
  ⟨rfl, C6_error_view_persists demoRuntime (onerror (mount 0)) "Connection error occurred"
    .timerExpired rfl⟩

/-- Claim C7 fails on the code at a malformed message: the `catch` block enters the
Error state without calling `eventSource.close()`, so the connection stays open (no
`close` call has been made) and a later trade batch is still handled; the other two
ways into Error, `onerror` and the timer callback, do close the connection. -/
theorem C7_malformed_message_leaves_connection_open :
    viewState (onmessage demoRuntime (mount 0) malformedText) =
      .Error "Error processing trade data" ∧
    (onmessage demoRuntime (mount 0) malformedText).closeCalls = 0 ∧
    (onmessage demoRuntime (onmessage demoRuntime (mount 0) malformedText)
      tradeText).trades.length = 1 ∧
    (onerror (mount 0 : State ℚ)).closeCalls = 1 ∧
    (step demoRuntime (mount 0) Event.timerExpired).closeCalls = 1 := by
  refine ⟨rfl, rfl, rfl, rfl, rfl⟩

/-- Claim C8, as stated, fails: unmounting after a transport error calls `close` a
second time, because `onerror` has closed the connection and the cleanup closes it
unconditionally. -/
theorem C8_double_close_counterexample :
    (run demoRuntime (mount 0) [Event.transportError]).closeCalls = 1 ∧
    (cleanup (run demoRuntime (mount 0) [Event.transportError])).closeCalls = 2 := by
  refine ⟨rfl, rfl⟩

/-- Claim C8, amended. For every event sequence between mount and unmount, the cleanup
calls `close` once, whatever the state; the events before it have called `close` once
per transport error and once more if the timer expired before any message, so the
connection is closed exactly once over the lifetime when neither happened.  After
unmount the timer is not pending, stays so whatever is delivered afterwards, and a timer
event changes nothing: the callback never runs. -/
theorem C8_unmount_closes_and_disarms (rt : JsRuntime Num) (k : Nat) (es es' : List Event) :
    (cleanup (run rt (mount k) es)).closeCalls = (run rt (mount k) es).closeCalls + 1 ∧
    (run rt (mount k) es).closeCalls =
      es.count .transportError + (if timeoutFires es = true then 1 else 0) ∧
    (es.count .transportError = 0 → timeoutFires es = false →
      (cleanup (run rt (mount k) es)).closeCalls = 1) ∧
    (cleanup (run rt (mount k) es)).pendingTimer = none ∧
    (run rt (cleanup (run rt (mount k) es)) es').pendingTimer = none ∧
    step rt (run rt (cleanup (run rt (mount k) es)) es') .timerExpired =
      run rt (cleanup (run rt (mount k) es)) es' := by
  have hclean := cleanup_eq (run rt (mount k) es) k (mount_run_timeoutRef rt k es)
    (mount_run_pendingTimer rt k es)
  have hcount : (run rt (mount k) es).closeCalls =
      es.count .transportError + (if timeoutFires es = true then 1 else 0) := by
    rw [run_closeCalls]
    simp [mount]
  have hpend : (cleanup (run rt (mount k) es)).pendingTimer = none := by rw [hclean]
  have hlater : (run rt (cleanup (run rt (mount k) es)) es').pendingTimer = none := by
    rcases run_pendingTimer rt (cleanup (run rt (mount k) es)) es' with h | h
    · exact h
    · rw [h]; exact hpend
  refine ⟨?_, hcount, ?_, hpend, hlater, ?_⟩
  · rw [hclean]
  · intro h0 hf
    rw [hclean]
    show (run rt (mount k) es).closeCalls + 1 = 1
    rw [hcount, h0, hf]
    rfl
  · rcases step_timer_cases rt (run rt (cleanup (run rt (mount k) es)) es')
      with ⟨_, h⟩ | ⟨hp, _, _⟩ | ⟨hp, _, _⟩
    · exact h
    · exact absurd hlater hp
    · exact absurd hlater hp

/-! ## The loading flag -/

/-- Every state reached from the mounted state satisfies: `loading` implies that no
error message and no record is held; and the error message, if any, is one of the three
fixed messages. -/
theorem run_invariant (rt : JsRuntime Num) (k : Nat) (es : List Event) :
    ((run rt (mount k) es).loading = true →
      (run rt (mount k) es).error = none ∧ (run rt (mount k) es).trades = []) ∧
    ((run rt (mount k) es).error = none ∨
      (run rt (mount k) es).error = some processingMessage ∨
      (run rt (mount k) es).error = some connectionMessage ∨
      (run rt (mount k) es).error = some timeoutMessage) := by
  induction es using List.reverseRecOn with
  | nil => exact ⟨fun _ => ⟨rfl, rfl⟩, Or.inl rfl⟩
  | append_singleton es e ih =>
    have hrun : run rt (mount k) (es ++ [e]) = step rt (run rt (mount k) es) e := by
      rw [run_append]; rfl
    rw [hrun]
    constructor
    · intro hload
      rcases step_loading_cases rt (run rt (mount k) es) e with h | ⟨h1, h2, h3⟩
      · rw [h] at hload; exact absurd hload (by simp)
      · rw [h2, h3]
        exact ih.1 (by rw [← h1]; exact hload)
    · rcases step_error_cases rt (run rt (mount k) es) e with h | ⟨h, _⟩ | ⟨h, _⟩ | ⟨h, _⟩
      · rw [h]; exact ih.2
      · exact Or.inr (Or.inl h)
      · exact Or.inr (Or.inr (Or.inl h))
      · exact Or.inr (Or.inr (Or.inr h))

/-- Claim C10. In every state reachable from the initial state by message,
transport-error and timer events, `loading` implies that `error` is null and `trades`
is empty; so the Loading view is shown exactly when `loading` holds and the Error view
exactly when an error message is held, the spinner is never rendered while records or
an error message are held, and `loading` never returns to true once false. -/
theorem C10_loading_invariant (rt : JsRuntime Num) (k : Nat) (es es' : List Event) :
    ((run rt (mount k) es).loading = true →
      (run rt (mount k) es).error = none ∧ (run rt (mount k) es).trades = []) ∧
    (viewState (run rt (mount k) es) = .Loading ↔ (run rt (mount k) es).loading = true) ∧
    ((∃ msg, viewState (run rt (mount k) es) = .Error msg) ↔
      (run rt (mount k) es).error ≠ none) ∧
    (render rt (run rt (mount k) es) = some .spinner →
      (run rt (mount k) es).error = none ∧ (run rt (mount k) es).trades = []) ∧
    ((run rt (mount k) es).loading = false →
      (run rt (run rt (mount k) es) es').loading = false) := by
  obtain ⟨hinv, herr⟩ := run_invariant rt k es
  have htruthy : (run rt (mount k) es).error ≠ none →
      truthyError (run rt (mount k) es).error = true := by
    intro hne
    rcases herr with h | h | h | h
    · exact absurd h hne
    · rw [h]; decide
    · rw [h]; decide
    · rw [h]; decide
  have hloadingView : viewState (run rt (mount k) es) = .Loading ↔
      (run rt (mount k) es).loading = true := by
    constructor
    · intro hv
      unfold viewState at hv
      split at hv
      · exact absurd hv (by simp)
      · split at hv
        · assumption
        · exact absurd hv (by simp)
    · intro hl
      unfold viewState
      rw [(hinv hl).1, hl]
      rfl
  refine ⟨hinv, hloadingView, ?_, ?_, ?_⟩
  · constructor
    · rintro ⟨msg, hv⟩ hnone
      have := ((viewState_error_iff _ _).1 hv).1
      rw [hnone] at this
      exact absurd this (by simp)
    · intro hne
      cases hE : (run rt (mount k) es).error with
      | none => exact absurd hE hne
      | some msg =>
        refine ⟨msg, (viewState_error_iff _ _).2 ⟨hE, ?_⟩⟩
        have ht := htruthy hne
        rw [hE] at ht
        intro hempty
        subst hempty
        exact absurd ht (by decide)
  · intro hr
    apply hinv
    unfold render at hr
    split at hr
    · exact absurd hr (by simp)
    · split at hr
      · exact absurd hr (by simp)
      · split at hr
        · assumption
        · exact absurd hr (by simp)
  · intro hfalse
    induction es' using List.reverseRecOn with
    | nil => exact hfalse
    | append_singleton es' e ih =>
      rw [run_append]
      show (step rt (run rt (run rt (mount k) es) es') e).loading = false
      rcases step_loading_cases rt (run rt (run rt (mount k) es) es') e with h | ⟨h, _, _⟩
      · exact h
      · rw [h]; exact ih

end TradeChart
